import Mathlib

/-!
Shallow embedding of the application-level contract of the agents-playground
repository: the currency-converter backend (`convertHandler`, `fetchRate`),
the search-engine backend (`handleSearchMovies`, `handleDeleteMovie`,
`parseIntWithDefault`) and the travel-blog backend (`updateCountry`,
`updatePlace`, `deleteCountry`).

External collaborators (the HTTP stack, `strconv`, `time.Parse`, the
Elasticsearch index and the Postgres database) are represented as explicit
parameters or as association-list stores; everything the handlers themselves
compute is translated directly from the Go source.
-/

/-! ## Currency-converter backend -/

/-- Body of the upstream Yahoo-Finance chart response, as seen through the Go
struct `chartResponse`: either the JSON does not decode, or it yields a
possibly-set `chart.error` and a list of results, each carrying its
`meta.regularMarketPrice`. -/
inductive ChartBody where
  | malformed : ChartBody
  | payload (chartError : Bool) (results : List Rat) : ChartBody
deriving DecidableEq

/-- Outcome of the outbound HTTP call made by `fetchRate`: a transport error
from `client.Do`, or a response with a status code and a body. -/
inductive HttpResult where
  | transportError : HttpResult
  | response (statusCode : Nat) (body : ChartBody) : HttpResult
deriving DecidableEq

/-- Embeds `fetchRate` of the currency-converter backend: check the status
code, decode the payload, reject a set `chart.error`, an empty result list and
a zero price, and otherwise return the first result's price. -/
def fetchRate : HttpResult → Except String Rat
  | .transportError => .error "transport error"
  | .response statusCode body =>
    if statusCode ≠ 200 then .error "unexpected status code"
    else
      match body with
      | .malformed => .error "decode error"
      | .payload chartError results =>
        if chartError then .error "chart api returned an error"
        else
          match results with
          | [] => .error "chart api returned no results"
          | price :: _ =>
            if price = 0 then .error "received zero price from api"
            else .ok price

/-- Query-level view of a request to `/api/convert`. -/
structure ConvertRequest where
  method : String
  base : String
  target : String
  amountStr : String
deriving DecidableEq

/-- The Go struct `convertResponse`. -/
structure ConvertPayload where
  base : String
  target : String
  amount : Rat
  rate : Rat
  converted : Rat
  source : String
deriving DecidableEq

/-- Body written by `convertHandler`: a plain-text error (via `http.Error`) or
the JSON success payload. -/
inductive ConvertBody where
  | text (msg : String) : ConvertBody
  | json (payload : ConvertPayload) : ConvertBody
deriving DecidableEq

/-- Full observable outcome of `convertHandler`, including whether the global
`rateFetcher` strategy was invoked. -/
structure ConvertOutcome where
  status : Nat
  body : ConvertBody
  fetcherCalled : Bool
deriving DecidableEq

/-- Embeds `strings.ToUpper` (character-wise upper-casing). -/
def goUpper (s : String) : String :=
  String.mk (s.data.map Char.toUpper)

/-- Embeds `strings.TrimSpace` (strip whitespace from both ends). -/
def goTrim (s : String) : String :=
  String.mk (((s.data.dropWhile Char.isWhitespace).reverse.dropWhile Char.isWhitespace).reverse)

/-- Embeds `convertHandler`. `parseFloat` stands for `strconv.ParseFloat` and
`fetcher` for the swappable global `rateFetcher`. -/
def convertHandler (parseFloat : String → Option Rat)
    (fetcher : String → String → Except String Rat)
    (r : ConvertRequest) : ConvertOutcome :=
  if r.method ≠ "GET" then ⟨405, .text "method not allowed", false⟩
  else
    let base := goUpper r.base
    let target := goUpper r.target
    if base = "" ∨ target = "" then
      ⟨400, .text "base and target query parameters are required", false⟩
    else
      let amountRes : Except ConvertOutcome Rat :=
        if r.amountStr = "" then .ok 1
        else
          match parseFloat r.amountStr with
          | none => .error ⟨400, .text "amount must be a number", false⟩
          | some parsed => .ok parsed
      match amountRes with
      | .error out => out
      | .ok amount =>
        match fetcher base target with
        | .error _ => ⟨502, .text "failed to fetch rate", true⟩
        | .ok rate =>
          ⟨200, .json ⟨base, target, amount, rate, rate * amount, "yahoo-finance"⟩, true⟩

/-! ## Search-engine backend -/

/-- The Go `Movie` struct. -/
structure Movie where
  id : String
  title : String
  description : String
  genre : String
  rating : Rat
  releaseYear : Int
deriving DecidableEq

/-- Embeds `parseIntWithDefault`; `atoi` stands for `strconv.Atoi`. -/
def parseIntWithDefault (atoi : String → Option Int) (value : String) (dflt : Int) : Int :=
  if value = "" then dflt
  else
    match atoi value with
    | none => dflt
    | some parsed => parsed

/-- The `if page < 1` clamp in `handleSearchMovies`. -/
def clampPage (page : Int) : Int :=
  if page < 1 then 1 else page

/-- The `if pageSize <= 0 || pageSize > 50` fallback in `handleSearchMovies`. -/
def substPageSize (pageSize : Int) : Int :=
  if pageSize ≤ 0 ∨ pageSize > 50 then 5 else pageSize

/-- The `query` part of the Elasticsearch request body. -/
inductive EsQuery where
  | matchAll : EsQuery
  | multiMatch (query : String) (fields : List String) : EsQuery
deriving DecidableEq

/-- The fixed field list of the `multi_match` query. -/
def searchFields : List String := ["title^2", "description", "genre"]

/-- The Elasticsearch search request body built by `handleSearchMovies`. -/
structure SearchRequestBody where
  fromOffset : Int
  size : Int
  sort : List (String × String)
  query : EsQuery
deriving DecidableEq

/-- Builds the search body exactly as `handleSearchMovies` does from the raw
(already `Atoi`-parsed) page and pageSize values and the free-text query. -/
def buildSearchBody (page0 pageSize0 : Int) (q : String) : SearchRequestBody :=
  let page := clampPage page0
  let pageSize := substPageSize pageSize0
  { fromOffset := (page - 1) * pageSize
    size := pageSize
    sort := [("rating", "desc")]
    query := if q = "" then .matchAll else .multiMatch q searchFields }

/-- Splits a character list at the first caret, if any. -/
def splitCaret : List Char → List Char × Option (List Char)
  | [] => ([], none)
  | c :: cs =>
    if c = '^' then ([], some cs)
    else
      let rest := splitCaret cs
      (c :: rest.1, rest.2)

/-- Reads a decimal boost value. -/
def parseBoost (cs : List Char) : Option Nat :=
  if cs ≠ [] ∧ cs.all Char.isDigit then
    some (cs.foldl (fun acc c => acc * 10 + (c.toNat - 48)) 0)
  else none

/-- Modelled from the spec: Elasticsearch interprets a `multi_match` field
written `name^boost` as field `name` weighted by `boost`, the weight
defaulting to 1 when no caret is present. Used only to compare the fixed
field list against the spec's weighted-field description. -/
def fieldBoost (f : String) : String × Nat :=
  match splitCaret f.toList with
  | (n, none) => (String.mk n, 1)
  | (n, some b) => (String.mk n, (parseBoost b).getD 1)

/-- The `totalPages := (totalHits + pageSize - 1) / pageSize` computation;
`Int.tdiv` is Go's truncated integer division. -/
def totalPages (totalHits pageSize : Int) : Int :=
  (totalHits + pageSize - 1).tdiv pageSize

/-- The Go `Pagination` struct. -/
structure Pagination where
  page : Int
  pageSize : Int
  totalHits : Int
  totalPages : Int
deriving DecidableEq

/-- Outcome of the Elasticsearch search call, as decoded by the handler: the
error branches map to distinct 500 responses, success carries
`hits.total.value` and the hits (external `_id` paired with the decoded
`_source`). -/
inductive EsSearchOutcome where
  | transportError : EsSearchOutcome
  | esError : EsSearchOutcome
  | decodeError : EsSearchOutcome
  | ok (totalHits : Int) (hits : List (String × Movie)) : EsSearchOutcome

/-- Body of the search response. -/
inductive SearchRespBody where
  | error (msg : String) : SearchRespBody
  | results (movies : List Movie) (pagination : Pagination) : SearchRespBody
deriving DecidableEq

structure SearchResponse where
  status : Nat
  body : SearchRespBody
deriving DecidableEq

/-- Embeds `handleSearchMovies`: parse page/pageSize with defaults, clamp and
substitute, build the query body, call the index, and map hits back with the
external id overriding the stored one. `search` stands for `es.Search`. -/
def handleSearchMovies (atoi : String → Option Int)
    (search : SearchRequestBody → EsSearchOutcome)
    (q pageStr pageSizeStr : String) : SearchResponse :=
  let page := clampPage (parseIntWithDefault atoi pageStr 1)
  let pageSize := substPageSize (parseIntWithDefault atoi pageSizeStr 5)
  let body := buildSearchBody (parseIntWithDefault atoi pageStr 1)
    (parseIntWithDefault atoi pageSizeStr 5) q
  match search body with
  | .transportError => ⟨500, .error "search request failed"⟩
  | .esError => ⟨500, .error "search returned an error"⟩
  | .decodeError => ⟨500, .error "failed to decode search results"⟩
  | .ok totalHits hits =>
    let movies := hits.map (fun h => { h.2 with id := h.1 })
    ⟨200, .results movies ⟨page, pageSize, totalHits, totalPages totalHits pageSize⟩⟩

/-- Response of `handleDeleteMovie`, together with the index contents after
the call (the Elasticsearch document store is modelled as an association
list keyed by `_id`; transport failures, which yield 500, are outside this
model). -/
structure DeleteMovieResponse where
  status : Nat
  errorMsg : Option String
  store : List (String × Movie)
deriving DecidableEq

/-- Embeds `handleDeleteMovie`: `es.Delete` answers 404 when no document has
the id (leaving the index untouched) and otherwise removes it, after which
the handler responds 204 with no body. -/
def handleDeleteMovie (store : List (String × Movie)) (id : String) : DeleteMovieResponse :=
  if store.any (fun doc => doc.1 == id) then
    ⟨204, none, store.filter (fun doc => !(doc.1 == id))⟩
  else
    ⟨404, some "movie not found", store⟩

/-! ## Travel-blog backend -/

/-- Wire-level value of one field of a JSON request body: absent, explicit
`null`, or a string value. -/
inductive JsonField where
  | absent : JsonField
  | null : JsonField
  | value (s : String) : JsonField
deriving DecidableEq

/-- How Go's `encoding/json` fills a `*string` struct field: both an absent
field and an explicit `null` decode to a nil pointer. -/
def decodeStringPtr : JsonField → Option String
  | .absent => none
  | .null => none
  | .value s => some s

/-- JSON body accepted by `updatePlace` (all fields `*string`). -/
structure PlaceUpdateRequest where
  name : JsonField
  category : JsonField
  city : JsonField
  description : JsonField
  visitedAt : JsonField
deriving DecidableEq

/-- A stored `places` row (the date is abstracted to a day value). -/
structure PlaceRow where
  name : String
  category : String
  city : String
  description : String
  visitedAt : Option Nat
deriving DecidableEq

/-- JSON body accepted by `updateCountry` (both fields `*string`). -/
structure CountryUpdateRequest where
  name : JsonField
  description : JsonField
deriving DecidableEq

/-- A stored `countries` row. -/
structure CountryRow where
  name : String
  description : String
deriving DecidableEq

/-- SQL `COALESCE($1, field)`: a nil parameter keeps the current value. -/
def coalesce (param : Option String) (current : String) : String :=
  match param with
  | none => current
  | some s => s

/-- The `name` branch of `updateCountry`: a present value is trimmed, and the
empty-after-trim case explicitly binds the empty string (so the parameter is
never SQL NULL once the field is present). -/
def resolveCountryName (input : Option String) : Option String :=
  match input with
  | none => none
  | some v =>
    let trimmed := goTrim v
    if trimmed ≠ "" then some trimmed else some ""

/-- Embeds the field resolution of `updateCountry` (bind, trim, then
`COALESCE` against the current row). -/
def updateCountryResolve (cur : CountryRow) (req : CountryUpdateRequest) : CountryRow :=
  { name := coalesce (resolveCountryName (decodeStringPtr req.name)) cur.name
    description := coalesce ((decodeStringPtr req.description).map goTrim) cur.description }

/-- The only update-time validation failure in `updatePlace`: a present,
non-empty `visited_at` that does not parse, answered with
400 "invalid visited_at format, expected YYYY-MM-DD". -/
inductive UpdateError where
  | invalidVisitedAt : UpdateError
deriving DecidableEq

/-- The `visited_at` block of `updatePlace`: an absent pointer leaves
`setVisited` false, an empty string requests an explicit clear, anything else
must parse as a date. `parseDate` stands for `time.Parse("2006-01-02", ·)`. -/
def resolveVisited (parseDate : String → Option Nat) :
    Option String → Except UpdateError (Bool × Option Nat)
  | none => .ok (false, none)
  | some s =>
    if s = "" then .ok (true, none)
    else
      match parseDate s with
      | none => .error .invalidVisitedAt
      | some t => .ok (true, some t)

/-- Embeds the field resolution of `updatePlace`: the four string fields go
through nil-check, trim and `COALESCE`; `visited_at` goes through
`resolveVisited` and the SQL `CASE WHEN $5 THEN $6 ELSE visited_at END`. -/
def updatePlaceResolve (parseDate : String → Option Nat)
    (cur : PlaceRow) (req : PlaceUpdateRequest) : Except UpdateError PlaceRow :=
  match resolveVisited parseDate (decodeStringPtr req.visitedAt) with
  | .error e => .error e
  | .ok (setVisited, visitedAt) =>
    .ok { name := coalesce ((decodeStringPtr req.name).map goTrim) cur.name
          category := coalesce ((decodeStringPtr req.category).map goTrim) cur.category
          city := coalesce ((decodeStringPtr req.city).map goTrim) cur.city
          description := coalesce ((decodeStringPtr req.description).map goTrim) cur.description
          visitedAt := if setVisited then visitedAt else cur.visitedAt }

/-- Response of `deleteCountry`, together with the table contents after the
call (the `countries` table is modelled as an association list keyed by id). -/
structure DeleteCountryResponse where
  status : Nat
  errorMsg : Option String
  store : List (Int × CountryRow)
deriving DecidableEq

/-- Embeds `deleteCountry`: the SQL `DELETE` removes every row with the id,
`RowsAffected() == 0` yields 404, otherwise the handler responds 204 with no
body. -/
def deleteCountry (store : List (Int × CountryRow)) (id : Int) : DeleteCountryResponse :=
  let affected := store.countP (fun row => row.1 == id)
  let remaining := store.filter (fun row => !(row.1 == id))
  if affected = 0 then ⟨404, some "country not found", remaining⟩
  else ⟨204, none, remaining⟩

/-! ## Theorems -/

/-- C3: the query builder clamps `page < 1` to 1, replaces any `pageSize`
outside `(0, 50]` with the default 5, and computes the offset as
`from = (page - 1) * pageSize` from the substituted values. -/
theorem search_page_params_clamped (page0 pageSize0 : Int) (q : String) :
    (page0 < 1 → clampPage page0 = 1)
    ∧ (1 ≤ page0 → clampPage page0 = page0)
    ∧ (pageSize0 ≤ 0 ∨ 50 < pageSize0 → substPageSize pageSize0 = 5)
    ∧ (0 < pageSize0 → pageSize0 ≤ 50 → substPageSize pageSize0 = pageSize0)
    ∧ (buildSearchBody page0 pageSize0 q).size = substPageSize pageSize0
    ∧ (buildSearchBody page0 pageSize0 q).fromOffset
        = (clampPage page0 - 1) * substPageSize pageSize0 := by
  refine ⟨?_, ?_, ?_, ?_, rfl, rfl⟩
  · intro h; unfold clampPage; split_ifs
    all_goals omega
  · intro h; unfold clampPage; split_ifs
    all_goals omega
  · intro h; unfold substPageSize; split_ifs
    all_goals omega
  · intro h1 h2; unfold substPageSize; split_ifs
    all_goals omega

theorem search_page_params_clamped_witness :
    clampPage 0 = 1 ∧ substPageSize 99 = 5 ∧ (buildSearchBody 0 99 "x").fromOffset = 0 := by
  obtain ⟨h1, _, h3, _, _, h6⟩ := search_page_params_clamped 0 99 "x"
  refine ⟨h1 (by decide), h3 (Or.inr (by decide)), ?_⟩
  rw [h6, h1 (by decide), h3 (Or.inr (by decide))]
  decide

/-- C5: an empty free-text query yields `match_all`, a non-empty one yields
`multi_match` over exactly the fields `title^2`, `description`, `genre`, with
`title` boosted to 2, strictly above the default weight 1 of the others. -/
theorem search_query_shape (page0 pageSize0 : Int) (q : String) :
    ((buildSearchBody page0 pageSize0 q).query = .matchAll ↔ q = "")
    ∧ (q ≠ "" → (buildSearchBody page0 pageSize0 q).query = .multiMatch q searchFields)
    ∧ searchFields.map fieldBoost = [("title", 2), ("description", 1), ("genre", 1)]
    ∧ (fieldBoost "description").2 < (fieldBoost "title^2").2
    ∧ (fieldBoost "genre").2 < (fieldBoost "title^2").2 := by
  refine ⟨?_, ?_, by decide, by decide, by decide⟩
  · by_cases hq : q = "" <;> simp [buildSearchBody, hq]
  · intro hq; simp [buildSearchBody, hq]

theorem search_query_shape_witness :
    (buildSearchBody 1 5 "").query = .matchAll
    ∧ (buildSearchBody 1 5 "dream").query = .multiMatch "dream" searchFields := by
  exact ⟨(search_query_shape 1 5 "").1.mpr rfl,
    (search_query_shape 1 5 "dream").2.1 (by decide)⟩

/-- C9: an empty or non-numeric `page`/`pageSize` query parameter is silently
replaced by the defaults (page 1, pageSize 5) and the search proceeds; the
search handler never answers a 4xx status. -/
theorem malformed_paging_defaults (atoi : String → Option Int)
    (search : SearchRequestBody → EsSearchOutcome) (q pageStr pageSizeStr : String)
    (hp : atoi pageStr = none) (hs : atoi pageSizeStr = none) :
    parseIntWithDefault atoi pageStr 1 = 1
    ∧ parseIntWithDefault atoi pageSizeStr 5 = 5
    ∧ handleSearchMovies atoi search q pageStr pageSizeStr
        = handleSearchMovies atoi search q "" ""
    ∧ ((handleSearchMovies atoi search q pageStr pageSizeStr).status = 200
       ∨ (handleSearchMovies atoi search q pageStr pageSizeStr).status = 500) := by
  have h1 : parseIntWithDefault atoi pageStr 1 = 1 := by
    by_cases hv : pageStr = "" <;> simp [parseIntWithDefault, hv, hp]
  have h2 : parseIntWithDefault atoi pageSizeStr 5 = 5 := by
    by_cases hv : pageSizeStr = "" <;> simp [parseIntWithDefault, hv, hs]
  have e1 : parseIntWithDefault atoi "" 1 = 1 := by simp [parseIntWithDefault]
  have e2 : parseIntWithDefault atoi "" 5 = 5 := by simp [parseIntWithDefault]
  refine ⟨h1, h2, ?_, ?_⟩
  · unfold handleSearchMovies
    rw [h1, h2, e1, e2]
  · simp only [handleSearchMovies]
    rcases hsf : search (buildSearchBody (parseIntWithDefault atoi pageStr 1)
        (parseIntWithDefault atoi pageSizeStr 5) q) with _ | _ | _ | ⟨t, hits⟩ <;>
      simp [hsf]

theorem malformed_paging_defaults_witness :
    parseIntWithDefault (fun _ => none) "x" 1 = 1
    ∧ handleSearchMovies (fun _ => none) (fun _ => .ok 0 []) "a" "x" "y"
        = handleSearchMovies (fun _ => none) (fun _ => .ok 0 []) "a" "" "" := by
  have h := malformed_paging_defaults (fun _ => none)
    (fun _ => EsSearchOutcome.ok 0 []) "a" "x" "y" rfl rfl
  exact ⟨h.1, h.2.2.1⟩

/-- C4: with `total_hits ≥ 0` and a substituted `pageSize ≥ 1`, the metadata
computed as `(total_hits + pageSize - 1) / pageSize` equals
`ceil(total_hits / pageSize)`; in particular it is 1 for 5 hits at page size 5
and 0 for 0 hits, and the 200 branch of the search handler carries exactly
this value. -/
theorem total_pages_is_ceiling (t p : Int) (ht : 0 ≤ t) (hp : 1 ≤ p) :
    totalPages t p = ⌈(t : ℚ) / (p : ℚ)⌉
    ∧ totalPages 5 5 = 1
    ∧ totalPages 0 p = 0
    ∧ ∀ (atoi : String → Option Int) (q ps ss : String) (hits : List (String × Movie)),
        handleSearchMovies atoi (fun _ => .ok t hits) q ps ss
          = ⟨200, .results (hits.map (fun h => { h.2 with id := h.1 }))
              ⟨clampPage (parseIntWithDefault atoi ps 1),
               substPageSize (parseIntWithDefault atoi ss 5), t,
               totalPages t (substPageSize (parseIntWithDefault atoi ss 5))⟩⟩ := by
  have hp0 : (0 : ℤ) < p := by omega
  refine ⟨?_, by decide, ?_, ?_⟩
  · unfold totalPages
    rw [Int.tdiv_eq_ediv (by omega) (by omega)]
    have hmod := Int.ediv_add_emod (t + p - 1) p
    have hr0 : 0 ≤ (t + p - 1) % p := Int.emod_nonneg _ (by omega)
    have hrp : (t + p - 1) % p < p := Int.emod_lt_of_pos _ hp0
    set d := (t + p - 1) / p with hd
    set r := (t + p - 1) % p with hr
    have hpq : (0 : ℚ) < (p : ℚ) := by exact_mod_cast hp0
    symm
    rw [Int.ceil_eq_iff]
    constructor
    · rw [lt_div_iff₀ hpq]
      have hlt : ((d : ℤ) - 1) * p < t := by nlinarith
      exact_mod_cast hlt
    · rw [div_le_iff₀ hpq]
      have hle : t ≤ (d : ℤ) * p := by nlinarith
      exact_mod_cast hle
  · show (0 + p - 1).tdiv p = 0
    rw [Int.tdiv_eq_ediv (by omega) (by omega)]
    exact Int.ediv_eq_zero_of_lt (by omega) (by omega)
  · intro atoi q ps ss hits
    rfl

theorem total_pages_is_ceiling_witness :
    totalPages 5 5 = 1 ∧ totalPages 0 5 = 0 ∧ totalPages 5 5 = ⌈(5 : ℚ) / (5 : ℚ)⌉ := by
  have h := total_pages_is_ceiling 5 5 (by decide) (by decide)
  exact ⟨h.2.1, (total_pages_is_ceiling 0 5 (by decide) (by decide)).2.2.1, h.1⟩

/-- Shape of a successful `updatePlace` field resolution: the visited-at block
accepted, and the row is the COALESCE/CASE combination of the request with the
current row. -/
theorem updatePlaceResolve_ok_shape (pd : String → Option Nat)
    (cur : PlaceRow) (req : PlaceUpdateRequest) (r : PlaceRow)
    (h : updatePlaceResolve pd cur req = .ok r) :
    ∃ sv, resolveVisited pd (decodeStringPtr req.visitedAt) = Except.ok sv ∧
      r = ⟨coalesce ((decodeStringPtr req.name).map goTrim) cur.name,
           coalesce ((decodeStringPtr req.category).map goTrim) cur.category,
           coalesce ((decodeStringPtr req.city).map goTrim) cur.city,
           coalesce ((decodeStringPtr req.description).map goTrim) cur.description,
           if sv.1 then sv.2 else cur.visitedAt⟩ := by
  unfold updatePlaceResolve at h
  cases hv : resolveVisited pd (decodeStringPtr req.visitedAt) with
  | error e =>
    rw [hv] at h
    simp at h
  | ok sv =>
    rw [hv] at h
    obtain ⟨setV, vAt⟩ := sv
    simp only [Except.ok.injEq] at h
    exact ⟨(setV, vAt), rfl, h.symm⟩

/-- C1 (counterexample): `updatePlace` decodes every JSON field into a Go
`*string`, so an explicit `null` is indistinguishable from an absent field.
On a stored place with `visited_at` set, a request that sets `visited_at` to
`null` succeeds and KEEPS the stored date (it is not cleared), and a request
that sets the non-nullable `name` to `null` succeeds silently instead of
failing with a ValidationError. -/
theorem place_null_cex :
    updatePlaceResolve (fun _ => none)
        ⟨"Louvre", "museum", "Paris", "art", some 42⟩
        ⟨.absent, .absent, .absent, .absent, .null⟩
      = .ok ⟨"Louvre", "museum", "Paris", "art", some 42⟩
    ∧ updatePlaceResolve (fun _ => none)
        ⟨"Louvre", "museum", "Paris", "art", some 42⟩
        ⟨.null, .absent, .absent, .absent, .absent⟩
      = .ok ⟨"Louvre", "museum", "Paris", "art", some 42⟩ := by
  exact ⟨rfl, rfl⟩

/-- C1 (amended): because `encoding/json` decodes an explicit `null` into the
same nil pointer as an absent field, a field explicitly set to `null` is
treated exactly like an absent field for all five updatable place fields (the
stored value is kept, with no ValidationError); `visited_at` is cleared by the
explicit empty string `""` instead. -/
theorem place_null_equals_absent (parseDate : String → Option Nat)
    (cur : PlaceRow) (req : PlaceUpdateRequest) :
    updatePlaceResolve parseDate cur { req with visitedAt := .null }
      = updatePlaceResolve parseDate cur { req with visitedAt := .absent }
    ∧ updatePlaceResolve parseDate cur { req with name := .null }
      = updatePlaceResolve parseDate cur { req with name := .absent }
    ∧ updatePlaceResolve parseDate cur { req with category := .null }
      = updatePlaceResolve parseDate cur { req with category := .absent }
    ∧ updatePlaceResolve parseDate cur { req with city := .null }
      = updatePlaceResolve parseDate cur { req with city := .absent }
    ∧ updatePlaceResolve parseDate cur { req with description := .null }
      = updatePlaceResolve parseDate cur { req with description := .absent }
    ∧ ∃ r, updatePlaceResolve parseDate cur { req with visitedAt := .value "" } = .ok r
        ∧ r.visitedAt = none := by
  obtain ⟨n, cat, ci, de, va⟩ := req
  refine ⟨rfl, ?_, ?_, ?_, ?_, ⟨_, rfl, rfl⟩⟩
  all_goals
    unfold updatePlaceResolve
    cases resolveVisited parseDate (decodeStringPtr va) <;> rfl

/-- C2: in a partial update, every field absent from the request keeps the
current stored value byte-identical, and every field present with a non-null
value is overwritten (with its trimmed value; a present non-empty valid
`visited_at` is overwritten with the parsed date, a present empty one clears
the field); this holds for the place update and for the country update. -/
theorem patch_preserves_absent_fields (parseDate : String → Option Nat)
    (cur : PlaceRow) (req : PlaceUpdateRequest) (r : PlaceRow)
    (ccur : CountryRow) (creq : CountryUpdateRequest)
    (h : updatePlaceResolve parseDate cur req = .ok r) :
    (req.name = .absent → r.name = cur.name)
    ∧ (∀ s, req.name = .value s → r.name = goTrim s)
    ∧ (req.category = .absent → r.category = cur.category)
    ∧ (∀ s, req.category = .value s → r.category = goTrim s)
    ∧ (req.city = .absent → r.city = cur.city)
    ∧ (∀ s, req.city = .value s → r.city = goTrim s)
    ∧ (req.description = .absent → r.description = cur.description)
    ∧ (∀ s, req.description = .value s → r.description = goTrim s)
    ∧ (req.visitedAt = .absent → r.visitedAt = cur.visitedAt)
    ∧ (∀ s d, req.visitedAt = .value s → s ≠ "" → parseDate s = some d →
        r.visitedAt = some d)
    ∧ (req.visitedAt = .value "" → r.visitedAt = none)
    ∧ (creq.name = .absent → (updateCountryResolve ccur creq).name = ccur.name)
    ∧ (∀ s, creq.name = .value s → (updateCountryResolve ccur creq).name = goTrim s)
    ∧ (creq.description = .absent →
        (updateCountryResolve ccur creq).description = ccur.description)
    ∧ (∀ s, creq.description = .value s →
        (updateCountryResolve ccur creq).description = goTrim s) := by
  obtain ⟨sv, hv, hr⟩ := updatePlaceResolve_ok_shape parseDate cur req r h
  subst hr
  refine ⟨?_, ?_, ?_, ?_, ?_, ?_, ?_, ?_, ?_, ?_, ?_, ?_, ?_, ?_, ?_⟩
  · intro hn; rw [hn]; rfl
  · intro s hn; rw [hn]; rfl
  · intro hn; rw [hn]; rfl
  · intro s hn; rw [hn]; rfl
  · intro hn; rw [hn]; rfl
  · intro s hn; rw [hn]; rfl
  · intro hn; rw [hn]; rfl
  · intro s hn; rw [hn]; rfl
  · intro hva
    rw [hva] at hv
    simp [resolveVisited, decodeStringPtr] at hv
    simp [← hv]
  · intro s d hva hs hpd
    rw [hva] at hv
    simp only [decodeStringPtr, resolveVisited, if_neg hs, hpd, Except.ok.injEq] at hv
    rw [← hv]
    rfl
  · intro hva
    rw [hva] at hv
    simp [resolveVisited, decodeStringPtr] at hv
    simp [← hv]
  · intro hn
    simp [updateCountryResolve, hn, decodeStringPtr, resolveCountryName, coalesce]
  · intro s hn
    simp only [updateCountryResolve, hn, decodeStringPtr, resolveCountryName]
    by_cases ht : goTrim s = "" <;> simp [ht, coalesce]
  · intro hn
    simp [updateCountryResolve, hn, decodeStringPtr, coalesce]
  · intro s hn
    simp [updateCountryResolve, hn, decodeStringPtr, coalesce]

theorem patch_preserves_absent_fields_witness :
    updatePlaceResolve (fun _ => some 7) (⟨"a", "b", "c", "d", some 1⟩ : PlaceRow)
        ⟨.absent, .absent, .absent, .absent, .absent⟩
      = .ok ⟨"a", "b", "c", "d", some 1⟩
    ∧ (⟨"a", "b", "c", "d", some 1⟩ : PlaceRow).visitedAt = some 1 := by
  have h : updatePlaceResolve (fun _ => some 7) (⟨"a", "b", "c", "d", some 1⟩ : PlaceRow)
      ⟨.absent, .absent, .absent, .absent, .absent⟩
    = .ok ⟨"a", "b", "c", "d", some 1⟩ := rfl
  have hc := patch_preserves_absent_fields (fun _ => some 7) ⟨"a", "b", "c", "d", some 1⟩
    ⟨.absent, .absent, .absent, .absent, .absent⟩ ⟨"a", "b", "c", "d", some 1⟩
    ⟨"n", "d"⟩ ⟨.absent, .absent⟩ h
  exact ⟨h, hc.2.2.2.2.2.2.2.2.1 rfl⟩

/-- C6: `fetchRate` answers an error — never a rate — on a transport error, a
non-200 status, a decode failure, a set `chart.error`, an empty result list
and a zero (or zero-valued, i.e. missing) price; a successful rate is never
zero; and whenever the fetcher errors, `convertHandler` answers 502 with the
generic message "failed to fetch rate". -/
theorem fetch_rejects_bad_data :
    fetchRate .transportError = .error "transport error"
    ∧ (∀ code body, code ≠ 200 →
        fetchRate (.response code body) = .error "unexpected status code")
    ∧ fetchRate (.response 200 .malformed) = .error "decode error"
    ∧ (∀ results, fetchRate (.response 200 (.payload true results))
        = .error "chart api returned an error")
    ∧ fetchRate (.response 200 (.payload false [])) = .error "chart api returned no results"
    ∧ (∀ rest, fetchRate (.response 200 (.payload false (0 :: rest)))
        = .error "received zero price from api")
    ∧ (∀ h r, fetchRate h = .ok r → r ≠ 0)
    ∧ (∀ (parseFloat : String → Option Rat) (fetcher : String → String → Except String Rat)
         (req : ConvertRequest) (msg : String),
        req.method = "GET" → ¬(goUpper req.base = "" ∨ goUpper req.target = "") →
        (req.amountStr = "" ∨ ∃ a, parseFloat req.amountStr = some a) →
        fetcher (goUpper req.base) (goUpper req.target) = .error msg →
        convertHandler parseFloat fetcher req = ⟨502, .text "failed to fetch rate", true⟩) := by
  refine ⟨rfl, ?_, rfl, ?_, rfl, ?_, ?_, ?_⟩
  · intro code body hc
    simp [fetchRate, hc]
  · intro results; rfl
  · intro rest; rfl
  · intro h r hok hr0
    subst hr0
    rcases h with _ | ⟨code, body⟩
    · simp [fetchRate] at hok
    · by_cases hc : code = 200
      · subst hc
        rcases body with _ | ⟨ce, results⟩
        · simp [fetchRate] at hok
        · cases ce
          · rcases results with _ | ⟨p, rest⟩
            · simp [fetchRate] at hok
            · by_cases hp : p = 0
              · simp [fetchRate, hp] at hok
              · simp [fetchRate, hp] at hok
          · simp [fetchRate] at hok
      · simp [fetchRate, hc] at hok
  · intro pF fe req msg hm hb ha hf
    rcases ha with ha | ⟨a, ha⟩
    · simp [convertHandler, hm, hb, ha, hf]
    · by_cases hs : req.amountStr = ""
      · simp [convertHandler, hm, hb, hs, hf]
      · simp [convertHandler, hm, hb, hs, ha, hf]

theorem fetch_rejects_bad_data_witness :
    fetchRate (.response 200 (.payload false [0])) = .error "received zero price from api"
    ∧ fetchRate (.response 503 .malformed) = .error "unexpected status code"
    ∧ convertHandler (fun _ => none) (fun _ _ => .error "boom") ⟨"GET", "usd", "idr", ""⟩
        = ⟨502, .text "failed to fetch rate", true⟩ := by
  have h := fetch_rejects_bad_data
  refine ⟨h.2.2.2.2.2.1 [], h.2.1 503 .malformed (by decide), ?_⟩
  exact h.2.2.2.2.2.2.2 (fun _ => none) (fun _ _ => .error "boom")
    ⟨"GET", "usd", "idr", ""⟩ "boom" rfl (by decide) (Or.inl rfl) rfl

/-- C7: a GET convert request whose `amount` parameter is present but not a
number is rejected with 400 and a validation message, and the rate fetcher is
never invoked. -/
theorem invalid_amount_400 (parseFloat : String → Option Rat)
    (fetcher : String → String → Except String Rat) (req : ConvertRequest)
    (hm : req.method = "GET") (ha : req.amountStr ≠ "")
    (hp : parseFloat req.amountStr = none) :
    (convertHandler parseFloat fetcher req).status = 400
    ∧ (convertHandler parseFloat fetcher req).fetcherCalled = false
    ∧ ((convertHandler parseFloat fetcher req).body
        = .text "base and target query parameters are required"
      ∨ (convertHandler parseFloat fetcher req).body = .text "amount must be a number") := by
  by_cases hb : goUpper req.base = "" ∨ goUpper req.target = ""
  · refine ⟨?_, ?_, Or.inl ?_⟩ <;> simp [convertHandler, hm, hb]
  · refine ⟨?_, ?_, Or.inr ?_⟩ <;> simp [convertHandler, hm, hb, ha, hp]

theorem invalid_amount_400_witness :
    (convertHandler (fun _ => none) (fun _ _ => .ok 1) ⟨"GET", "USD", "IDR", "abc"⟩).status = 400
    ∧ (convertHandler (fun _ => none) (fun _ _ => .ok 1)
        ⟨"GET", "USD", "IDR", "abc"⟩).fetcherCalled = false := by
  have h := invalid_amount_400 (fun _ => none) (fun _ _ => .ok 1)
    ⟨"GET", "USD", "IDR", "abc"⟩ rfl (by decide) rfl
  exact ⟨h.1, h.2.1⟩

/-- C10: on a successful fetch, the JSON payload satisfies
`converted = rate * amount` exactly, and an absent `amount` parameter defaults
to 1, making `converted = rate`. -/
theorem convert_computes_product (parseFloat : String → Option Rat)
    (fetcher : String → String → Except String Rat) (req : ConvertRequest) (rate : Rat)
    (hm : req.method = "GET") (hb : ¬(goUpper req.base = "" ∨ goUpper req.target = ""))
    (hf : fetcher (goUpper req.base) (goUpper req.target) = .ok rate) :
    (req.amountStr = "" → convertHandler parseFloat fetcher req
        = ⟨200, .json ⟨goUpper req.base, goUpper req.target, 1, rate, rate, "yahoo-finance"⟩, true⟩)
    ∧ (∀ a, req.amountStr ≠ "" → parseFloat req.amountStr = some a →
        convertHandler parseFloat fetcher req
          = ⟨200, .json ⟨goUpper req.base, goUpper req.target, a, rate, rate * a,
              "yahoo-finance"⟩, true⟩) := by
  constructor
  · intro ha
    simp [convertHandler, hm, hb, ha, hf]
  · intro a ha hpa
    simp [convertHandler, hm, hb, ha, hpa, hf]

theorem convert_computes_product_witness :
    convertHandler (fun _ => some 2) (fun _ _ => .ok 15000) ⟨"GET", "usd", "idr", ""⟩
      = ⟨200, .json ⟨"USD", "IDR", 1, 15000, 15000, "yahoo-finance"⟩, true⟩
    ∧ convertHandler (fun _ => some 2) (fun _ _ => .ok 15000) ⟨"GET", "usd", "idr", "2"⟩
      = ⟨200, .json ⟨"USD", "IDR", 2, 15000, 30000, "yahoo-finance"⟩, true⟩ := by
  have h1 := convert_computes_product (fun _ => some 2) (fun _ _ => .ok 15000)
    ⟨"GET", "usd", "idr", ""⟩ 15000 rfl (by decide) rfl
  have h2 := convert_computes_product (fun _ => some 2) (fun _ _ => .ok 15000)
    ⟨"GET", "usd", "idr", "2"⟩ 15000 rfl (by decide) rfl
  have e1 : goUpper "usd" = "USD" := by decide
  have e2 : goUpper "idr" = "IDR" := by decide
  have e3 : (15000 : Rat) * 2 = 30000 := by norm_num
  constructor
  · have t1 := h1.1 rfl
    dsimp only at t1
    rw [e1, e2] at t1
    exact t1
  · have t2 := h2.2 2 (by decide) rfl
    dsimp only at t2
    rw [e1, e2, e3] at t2
    exact t2

/-- C8: deleting a non-existent id answers 404 and leaves the stored records
unchanged; deleting a present id removes exactly that record and answers 204
with no body — both for the movie index and for the countries table. -/
theorem delete_semantics (mstore : List (String × Movie)) (mid : String)
    (cstore : List (Int × CountryRow)) (cid : Int) :
    ((∀ doc ∈ mstore, doc.1 ≠ mid) →
        handleDeleteMovie mstore mid = ⟨404, some "movie not found", mstore⟩)
    ∧ ((∃ doc ∈ mstore, doc.1 = mid) →
        handleDeleteMovie mstore mid
          = ⟨204, none, mstore.filter (fun doc => !(doc.1 == mid))⟩)
    ∧ (∀ doc ∈ (handleDeleteMovie mstore mid).store,
        (handleDeleteMovie mstore mid).status = 204 → doc.1 ≠ mid)
    ∧ ((∀ row ∈ cstore, row.1 ≠ cid) →
        deleteCountry cstore cid = ⟨404, some "country not found", cstore⟩)
    ∧ ((∃ row ∈ cstore, row.1 = cid) →
        deleteCountry cstore cid
          = ⟨204, none, cstore.filter (fun row => !(row.1 == cid))⟩)
    ∧ (∀ row ∈ (deleteCountry cstore cid).store, row.1 ≠ cid) := by
  refine ⟨?_, ?_, ?_, ?_, ?_, ?_⟩
  · intro habs
    have hany : mstore.any (fun doc => doc.1 == mid) = false := by
      simp only [List.any_eq_false, beq_iff_eq]
      exact habs
    simp [handleDeleteMovie, hany]
  · intro ⟨doc, hdoc, hid⟩
    have hany : mstore.any (fun d => d.1 == mid) = true := by
      simp only [List.any_eq_true, beq_iff_eq]
      exact ⟨doc, hdoc, hid⟩
    simp [handleDeleteMovie, hany]
  · intro doc hdoc h204
    by_cases hany : mstore.any (fun d => d.1 == mid) = true
    · simp only [handleDeleteMovie, hany, if_true] at hdoc
      rcases List.mem_filter.mp hdoc with ⟨_, hne⟩
      simpa using hne
    · simp [handleDeleteMovie, hany] at h204
  · intro habs
    have hcount : cstore.countP (fun row => row.1 == cid) = 0 := by
      simp only [List.countP_eq_zero, beq_iff_eq]
      exact habs
    have hfil : cstore.filter (fun row => !(row.1 == cid)) = cstore := by
      apply List.filter_eq_self.mpr
      intro row hrow
      simpa using habs row hrow
    simp [deleteCountry, hcount, hfil]
  · intro ⟨row, hrow, hid⟩
    have hcount : cstore.countP (fun r => r.1 == cid) ≠ 0 := by
      simp only [ne_eq, List.countP_eq_zero, beq_iff_eq]
      push_neg
      exact ⟨row, hrow, hid⟩
    simp [deleteCountry, hcount]
  · intro row hrow
    have : row ∈ cstore.filter (fun r => !(r.1 == cid)) := by
      by_cases hcount : cstore.countP (fun r => r.1 == cid) = 0
      · simpa [deleteCountry, hcount] using hrow
      · simpa [deleteCountry, hcount] using hrow
    rcases List.mem_filter.mp this with ⟨_, hne⟩
    simpa using hne

theorem delete_semantics_witness :
    handleDeleteMovie [("a", ⟨"a", "t", "d", "g", 5, 2000⟩)] "b"
      = ⟨404, some "movie not found", [("a", ⟨"a", "t", "d", "g", 5, 2000⟩)]⟩
    ∧ handleDeleteMovie [("a", ⟨"a", "t", "d", "g", 5, 2000⟩)] "a" = ⟨204, none, []⟩
    ∧ deleteCountry [(1, ⟨"France", "hexagon"⟩)] 2
      = ⟨404, some "country not found", [(1, ⟨"France", "hexagon"⟩)]⟩
    ∧ deleteCountry [(1, ⟨"France", "hexagon"⟩)] 1 = ⟨204, none, []⟩ := by
  have h1 := delete_semantics [("a", ⟨"a", "t", "d", "g", 5, 2000⟩)] "b"
    [(1, (⟨"France", "hexagon"⟩ : CountryRow))] 2
  have h2 := delete_semantics [("a", ⟨"a", "t", "d", "g", 5, 2000⟩)] "a"
    [(1, (⟨"France", "hexagon"⟩ : CountryRow))] 1
  refine ⟨h1.1 ?_, (h2.2.1 ?_).trans ?_, h1.2.2.2.1 ?_, (h2.2.2.2.2.1 ?_).trans ?_⟩
  · intro doc hdoc
    simp at hdoc
    simp [hdoc]
  · exact ⟨("a", ⟨"a", "t", "d", "g", 5, 2000⟩), by simp, rfl⟩
  · decide
  · intro row hrow
    simp at hrow
    simp [hrow]
  · exact ⟨(1, ⟨"France", "hexagon"⟩), by simp, rfl⟩
  · decide
